import Mathlib

/-!
Shallow embedding of `filterpy/common/properties.py`: the shape-coercion
algorithm `as_matrix`, the matrix templates (`MatrixTemplate`,
`MatrixFunctionTemplate`), the wrapped-function type
(`DecoratedMatrixFunction`, `MatrixFunction`) and the per-instance
validated-attribute descriptor (`ClassProperty`).

Numpy arrays are modelled as a shape (list of dimension lengths) plus a
row-major flat data list.  Python exceptions become an explicit `Err` type
carried in `Except`.
-/

namespace Properties

/-- Errors raised by the module.  `shapeMismatch` is the formatted
`ValueError` raised by `as_matrix`'s final branch (carrying the label, the
expected shape and the post-squeeze shape); `cannotReshape` is numpy's own
`ValueError` from `ndarray.reshape` when element counts disagree;
`attributeError` is the `AttributeError` of `ClassProperty.__get__`;
`templateShapeConflict` and `notCallable` are the two `ValueError`s of
`MatrixFunctionTemplate.__call__`; `valueError` covers the remaining plain
`ValueError`s. -/
inductive Err where
  | shapeMismatch (label : String) (expected : Nat × Nat) (actual : List Nat)
  | cannotReshape (size : Nat) (target : Nat × Nat)
  | attributeError (prop : String)
  | templateShapeConflict (label : String) (funShape : Nat × Nat)
  | notCallable (label : String)
  | valueError (msg : String)
deriving DecidableEq, Repr

/-- An n-dimensional array: list of axis lengths plus row-major data. -/
structure NDArray (α : Type) where
  shape : List Nat
  data : List α
deriving DecidableEq, Repr

/-- Number of axes, numpy's `ndarray.ndim`. -/
def NDArray.ndim (a : NDArray α) : Nat := a.shape.length

/-- Drop all length-1 axes, numpy's `np.squeeze`; element order unchanged. -/
def squeeze (a : NDArray α) : NDArray α :=
  ⟨a.shape.filter (fun d => d != 1), a.data⟩

/-- Numpy's `ndarray.reshape((M, N))`: succeeds iff the element count
matches, keeping row-major order; otherwise raises `ValueError`. -/
def NDArray.reshape (a : NDArray α) (M N : Nat) : Except Err (NDArray α) :=
  if a.data.length = M * N then .ok ⟨[M, N], a.data⟩
  else .error (.cannotReshape a.data.length (M, N))

/-- The single element of a 0-d array, numpy's `m.item()` as used by the
broadcast multiplication `m * np.eye(M, N)`. -/
def NDArray.item [Zero α] (a : NDArray α) : α := a.data.headD 0

/-- Row-major data of `np.eye M N`. -/
def eyeData [Zero α] [One α] (M N : Nat) : List α :=
  ((List.range M).map (fun i => (List.range N).map (fun j => if i = j then 1 else 0))).flatten

/-- Numpy's `np.eye M N`. -/
def eye [Zero α] [One α] (M N : Nat) : NDArray α := ⟨[M, N], eyeData M N⟩

/-- Broadcast multiplication of a scalar with an array, `s * a`. -/
def scalarMulArr [Mul α] (s : α) (a : NDArray α) : NDArray α :=
  ⟨a.shape, a.data.map (fun x => s * x)⟩

/-- The shape-coercion algorithm `as_matrix(shape, v, name, multiplicative)`:
squeeze, exact-shape match, flat reshape for row/column-vector targets,
scalar-to-scaled-identity for square targets in multiplicative mode, else a
shape-mismatch error. -/
def as_matrix [Mul α] [Zero α] [One α] (shape : Nat × Nat) (v : NDArray α)
    (name : String) (multiplicative : Bool) : Except Err (NDArray α) :=
  let M := shape.1
  let N := shape.2
  let m := squeeze v
  if m.shape = [M, N] then .ok m
  else if m.ndim ≤ 1 ∧ (M = 1 ∨ N = 1) then m.reshape M N
  else if multiplicative = true ∧ m.ndim = 0 ∧ M = N then
    .ok (scalarMulArr m.item (eye M N))
  else .error (.shapeMismatch name (M, N) m.shape)

/-- A dynamically typed Python value as it may appear in the `name` and
`multiplicative` parameters of `DecoratedMatrixFunction.__init__`
(`None`, a `bool`, or a `str`). -/
inductive PyVal where
  | pynone
  | pybool (b : Bool)
  | pystr (s : String)
deriving DecidableEq, Repr

/-- Python truthiness of a `PyVal`, as used by `and` in `as_matrix`. -/
def PyVal.truthy : PyVal → Bool
  | .pynone => false
  | .pybool b => b
  | .pystr s => s ≠ ""

/-- A `Template` instance: the validator installed on a `ClassProperty`.
Python's `Template.__call__(v)` may read `self.name` for error labels, so
the call function receives the stored name explicitly. -/
structure Template (α : Type) where
  name : String
  call : String → α → Except Err α

/-- The base `Template()`: identity validation. -/
def Template.base : Template α := ⟨"template", fun _ v => .ok v⟩

/-- The validation function of `MatrixTemplate(m, n, multiplicative)`:
`__call__` delegates to `as_matrix` with the template's shape, flag and
current name. -/
def matrixTemplateCall (m n : Nat) (multiplicative : Bool) :
    String → NDArray Int → Except Err (NDArray Int) :=
  fun nm v => as_matrix (m, n) v nm multiplicative

/-- The `MatrixTemplate(m, n, multiplicative)` constructor; the inherited
initial name is the string `template`. -/
def MatrixTemplate (m n : Nat) (multiplicative : Bool) : Template (NDArray Int) :=
  ⟨"template", matrixTemplateCall m n multiplicative⟩

/-- An entry of an owning instance's `__dict__`: either a plain stored
value or an installed `Template`. -/
inductive Entry (α : Type) where
  | value (v : α)
  | template (t : Template α)

/-- The owning instance's `__dict__`, an insertion-ordered string map. -/
abbrev ObjDict (α : Type) := List (String × Entry α)

/-- Dictionary lookup (`obj.__dict__[k]`, `None`-free form). -/
def dictGet (d : ObjDict α) (key : String) : Option (Entry α) :=
  match d with
  | [] => none
  | (k, e) :: rest => if k = key then some e else dictGet rest key

/-- Dictionary store (`obj.__dict__[k] = e`). -/
def dictSet (d : ObjDict α) (key : String) (e : Entry α) : ObjDict α :=
  match d with
  | [] => [(key, e)]
  | (k, e0) :: rest => if k = key then (key, e) :: rest else (k, e0) :: dictSet rest key e

/-- The key `self.name + '#value'` used by `ClassProperty`. -/
def valueKey (name : String) : String := name ++ "#value"

/-- The key `self.name + '#template'` used by `ClassProperty`. -/
def templateKey (name : String) : String := name ++ "#template"

/-- `ClassProperty.__get__`: return the stored value, or raise
`AttributeError` when nothing was ever stored under the value key. -/
def classPropertyGet (name : String) (d : ObjDict α) : Except Err (Entry α) :=
  match dictGet d (valueKey name) with
  | some e => .ok e
  | none => .error (.attributeError name)

/-- `ClassProperty.__set__`: a `Template` is installed under the template
key (and renamed to the property's name); any other value is routed through
the installed template (if one is present) and stored under the value key. -/
def classPropertySet (name : String) (d : ObjDict α) (v : Entry α) :
    Except Err (ObjDict α) :=
  match v with
  | .template t => .ok (dictSet d (templateKey name) (.template ⟨name, t.call⟩))
  | .value x =>
    match dictGet d (templateKey name) with
    | some (.template t) =>
      match t.call t.name x with
      | .ok y => .ok (dictSet d (valueKey name) (.value y))
      | .error e => .error e
    | _ => .ok (dictSet d (valueKey name) (.value x))

/-- The template currently installed for `name` in `d`, if any. -/
def installedTemplate (name : String) (d : ObjDict α) : Option (Template α) :=
  match dictGet d (templateKey name) with
  | some (.template t) => some t
  | _ => none

/-- The instance dictionary after an assignment attempt: Python leaves the
dictionary untouched when `__set__` raises before its store statement. -/
def setAttempt (name : String) (d : ObjDict α) (v : Entry α) : ObjDict α :=
  match classPropertySet name d v with
  | .ok d2 => d2
  | .error _ => d

/-- The label computed by `DecoratedMatrixFunction.__init__`: starts as
`return value`; when `name` is not `None` the code tries
`'return value of ' + name`, which succeeds only for strings (for any other
value the `TypeError` is swallowed by the bare `except`). -/
def computeResultName : PyVal → String
  | .pystr s => "return value of " ++ s
  | .pynone => "return value"
  | .pybool _ => "return value"

/-- A `DecoratedMatrixFunction` object (of one argument type `ι`, returning
arrays over `Int`).  `name` and `multiplicative` are kept dynamically typed
because `MatrixFunction.__call__` passes them positionally. -/
structure DecoratedMatrixFunction (ι : Type) where
  shape : Nat × Nat
  name : PyVal
  multiplicative : PyVal
  resultName : String
  f : ι → Except Err (NDArray Int)

/-- `DecoratedMatrixFunction.__call__`: invoke the wrapped callable (errors
propagate unmodified), then coerce the returned value with `as_matrix`
using the stored shape, label and (truthiness of the) multiplicative flag. -/
def DecoratedMatrixFunction.call (d : DecoratedMatrixFunction ι) (x : ι) :
    Except Err (NDArray Int) :=
  match d.f x with
  | .error e => .error e
  | .ok v => as_matrix d.shape v d.resultName d.multiplicative.truthy

/-- A candidate passed to a function-shape validator: an already wrapped
function, a plain callable, or a non-callable object. -/
inductive FunCandidate (ι : Type) where
  | decorated (d : DecoratedMatrixFunction ι)
  | plainFun (f : ι → Except Err (NDArray Int))
  | notFun

/-- Python `callable(f)` on a candidate. -/
def FunCandidate.callable : FunCandidate ι → Bool
  | .decorated _ => true
  | .plainFun _ => true
  | .notFun => false

/-- The underlying callable of a candidate (`None` when not callable);
calling a stored `DecoratedMatrixFunction` goes through its `__call__`. -/
def FunCandidate.asFun : FunCandidate ι → Option (ι → Except Err (NDArray Int))
  | .decorated d => some d.call
  | .plainFun f => some f
  | .notFun => none

/-- Reading the `name` attribute of a candidate: `DecoratedMatrixFunction`
objects expose their `name` field; plain functions and other objects have
no `name` attribute (the `AttributeError` is caught by the caller). -/
def FunCandidate.nameAttr : FunCandidate ι → Option PyVal
  | .decorated d => some d.name
  | .plainFun _ => none
  | .notFun => none

/-- `DecoratedMatrixFunction.__init__(shape, f, name, multiplicative)`:
rejects non-callables with `ValueError('f must be callable')`, otherwise
builds the wrapper and precomputes the error label. -/
def mkDecoratedMatrixFunction (shape : Nat × Nat) (f : FunCandidate ι)
    (name : PyVal) (multiplicative : PyVal) :
    Except Err (DecoratedMatrixFunction ι) :=
  match f.asFun with
  | none => .error (.valueError "f must be callable")
  | some g => .ok ⟨shape, name, multiplicative, computeResultName name, g⟩

/-- A `MatrixFunctionTemplate(m, n, multiplicative)` object together with
its installed name (`template` at construction). -/
structure MatrixFunctionTemplate where
  name : String
  shape : Nat × Nat
  multiplicative : Bool

/-- `MatrixFunctionTemplate.__call__(f)`: an already-wrapped function is
returned unchanged when the shapes agree and rejected when they differ; a
non-callable is rejected; a plain callable is wrapped with the template's
shape, name and multiplicative flag. -/
def MatrixFunctionTemplate.call (t : MatrixFunctionTemplate)
    (f : FunCandidate ι) : Except Err (DecoratedMatrixFunction ι) :=
  match f with
  | .decorated d =>
    if d.shape ≠ t.shape then .error (.templateShapeConflict t.name d.shape)
    else .ok d
  | .notFun => .error (.notCallable t.name)
  | .plainFun g =>
    mkDecoratedMatrixFunction t.shape (.plainFun g) (.pystr t.name) (.pybool t.multiplicative)

/-- A `MatrixFunction(m, n, multiplicative, name)` annotation object. -/
structure MatrixFunction where
  shape : Nat × Nat
  name : PyVal
  multiplicative : Bool

/-- `MatrixFunction.__call__(f)`: resolve a name (from `self.name`, falling
back to `f.name` when it exists and is a string), then construct
`DecoratedMatrixFunction(self.shape, f, self.multiplicative, name)` — the
two last arguments are passed positionally into the constructor's
`(shape, f, name, multiplicative)` parameter list. -/
def MatrixFunction.call (mf : MatrixFunction) (f : FunCandidate ι) :
    Except Err (DecoratedMatrixFunction ι) :=
  let name : PyVal :=
    match mf.name with
    | .pynone =>
      match f.nameAttr with
      | some (.pystr s) => .pystr s
      | some _ => .pynone
      | none => .pynone
    | other => other
  mkDecoratedMatrixFunction mf.shape f (.pybool mf.multiplicative) name

/-- Whether a coercion result is the formatted shape-mismatch error. -/
def isShapeMismatchErr : Except Err (NDArray Int) → Bool
  | .error (.shapeMismatch _ _ _) => true
  | _ => false

theorem dictGet_dictSet_self (d : ObjDict α) (k : String) (e : Entry α) :
    dictGet (dictSet d k e) k = some e := by
  induction d with
  | nil => simp [dictGet, dictSet]
  | cons he rest ih =>
    obtain ⟨k0, e0⟩ := he
    by_cases h : k0 = k <;> simp [dictGet, dictSet, h, ih]

theorem dictGet_dictSet_ne (d : ObjDict α) (k k2 : String) (e : Entry α)
    (h : k2 ≠ k) : dictGet (dictSet d k e) k2 = dictGet d k2 := by
  induction d with
  | nil => simp [dictGet, dictSet, h, Ne.symm h]
  | cons he rest ih =>
    obtain ⟨k0, e0⟩ := he
    by_cases h0 : k0 = k
    · subst h0
      simp [dictGet, dictSet, h, Ne.symm h]
    · by_cases h2 : k0 = k2 <;> simp [dictGet, dictSet, h0, h2, h, ih]

theorem valueKey_ne_templateKey (name : String) :
    valueKey name ≠ templateKey name := by
  intro h
  have hl := congrArg String.length h
  rw [valueKey, templateKey, String.length_append, String.length_append] at hl
  have h6 : ("#value" : String).length = 6 := rfl
  have h9 : ("#template" : String).length = 9 := rfl
  rw [h6, h9] at hl
  omega

/-- Claim C8: reading a `ClassProperty` attribute before any plain value was
stored fails with the `AttributeError` (a condition distinct from the
shape-mismatch error); after assigning a plain value `x`, reading returns
exactly the coerced form of `x`: the output of the installed validator, or
`x` unchanged when no validator is installed. -/
theorem classProperty_get_set_semantics {α : Type} (name : String)
    (d : ObjDict α) (x : α) :
    (dictGet d (valueKey name) = none →
      classPropertyGet name d = .error (.attributeError name))
    ∧ (∀ lab exp act, (Err.attributeError name) ≠ Err.shapeMismatch lab exp act)
    ∧ (installedTemplate name d = none →
        classPropertySet name d (.value x) =
          .ok (dictSet d (valueKey name) (.value x))
        ∧ classPropertyGet name (dictSet d (valueKey name) (.value x)) =
            .ok (.value x))
    ∧ (∀ (t : Template α) (y : α), installedTemplate name d = some t →
        t.call t.name x = .ok y →
        classPropertySet name d (.value x) =
          .ok (dictSet d (valueKey name) (.value y))
        ∧ classPropertyGet name (dictSet d (valueKey name) (.value y)) =
            .ok (.value y)) := by
  refine ⟨?_, ?_, ?_, ?_⟩
  · intro h
    simp [classPropertyGet, h]
  · intro lab exp act hcontra
    cases hcontra
  · intro h
    unfold installedTemplate at h
    refine ⟨?_, ?_⟩
    · unfold classPropertySet
      cases hg : dictGet d (templateKey name) with
      | none => simp [hg]
      | some en =>
        cases en with
        | value v => simp [hg]
        | template t =>
          rw [hg] at h
          simp at h
    · simp [classPropertyGet, dictGet_dictSet_self]
  · intro t y ht hy
    unfold installedTemplate at ht
    refine ⟨?_, ?_⟩
    · unfold classPropertySet
      cases hg : dictGet d (templateKey name) with
      | none =>
        rw [hg] at ht
        simp at ht
      | some en =>
        cases en with
        | value v =>
          rw [hg] at ht
          simp at ht
        | template t2 =>
          rw [hg] at ht
          simp at ht
          subst ht
          simp [hg, hy]
    · simp [classPropertyGet, dictGet_dictSet_self]

/-- Claim C9: assigning a `Template` instance installs or replaces the validator
(renamed to the property's name) without touching the stored value: the
value slot is unchanged, a subsequent read behaves exactly as before, and
the stored value is not re-validated. -/
theorem classProperty_template_assignment_preserves_value {α : Type}
    (name : String) (d : ObjDict α) (t : Template α) :
    classPropertySet name d (.template t) =
      .ok (dictSet d (templateKey name) (.template ⟨name, t.call⟩))
    ∧ dictGet (dictSet d (templateKey name) (.template ⟨name, t.call⟩))
        (valueKey name) = dictGet d (valueKey name)
    ∧ classPropertyGet name
        (dictSet d (templateKey name) (.template ⟨name, t.call⟩)) =
        classPropertyGet name d
    ∧ installedTemplate name
        (dictSet d (templateKey name) (.template ⟨name, t.call⟩)) =
        some ⟨name, t.call⟩ := by
  have hne := valueKey_ne_templateKey name
  have hget := dictGet_dictSet_ne d (templateKey name) (valueKey name)
    (Entry.template ⟨name, t.call⟩) hne
  refine ⟨rfl, hget, ?_, ?_⟩
  · unfold classPropertyGet
    rw [hget]
  · unfold installedTemplate
    rw [dictGet_dictSet_self]

/-- Claim C10: when the installed validator fails while a plain value is being
assigned, the assignment raises that error and the attribute's state is
left unchanged: the dictionary is as before, a subsequent read behaves
exactly as before, and the installed validator is still in place. -/
theorem classProperty_failed_set_preserves_state {α : Type} (name : String)
    (d : ObjDict α) (x : α) (t : Template α) (e : Err)
    (ht : installedTemplate name d = some t)
    (he : t.call t.name x = .error e) :
    classPropertySet name d (.value x) = .error e
    ∧ setAttempt name d (.value x) = d
    ∧ classPropertyGet name (setAttempt name d (.value x)) =
        classPropertyGet name d
    ∧ installedTemplate name (setAttempt name d (.value x)) = some t := by
  unfold installedTemplate at ht
  have hset : classPropertySet name d (.value x) = .error e := by
    unfold classPropertySet
    cases hg : dictGet d (templateKey name) with
    | none =>
      rw [hg] at ht
      simp at ht
    | some en =>
      cases en with
      | value v =>
        rw [hg] at ht
        simp at ht
      | template t2 =>
        rw [hg] at ht
        simp at ht
        subst ht
        simp [hg, he]
  have hatt : setAttempt name d (.value x) = d := by
    unfold setAttempt
    rw [hset]
  refine ⟨hset, hatt, ?_, ?_⟩
  · rw [hatt]
  · rw [hatt]
    unfold installedTemplate
    exact ht

/-- A 1x1 multiplicative matrix template installed under the name `A`. -/
def wTemplateOneOne : Template (NDArray Int) := ⟨"A", matrixTemplateCall 1 1 true⟩

/-- An instance dictionary holding only the installed 1x1 template. -/
def wDictWithTemplate : ObjDict (NDArray Int) :=
  [(templateKey "A", .template wTemplateOneOne)]

/-- A 2x2 non-multiplicative matrix template installed under the name `A`. -/
def wTemplateTwoTwo : Template (NDArray Int) := ⟨"A", matrixTemplateCall 2 2 false⟩

/-- An instance dictionary holding only the installed 2x2 template. -/
def wDictWithStrictTemplate : ObjDict (NDArray Int) :=
  [(templateKey "A", .template wTemplateTwoTwo)]

/-- Witness for C8 at concrete inputs: empty dictionary, value `7`, and a
dictionary with an installed 1x1 template coercing `7` to `[[7]]`. -/
theorem classProperty_get_set_semantics_witness :
    (classPropertyGet "A" ([] : ObjDict (NDArray Int)) =
      .error (.attributeError "A"))
    ∧ (classPropertySet "A" ([] : ObjDict (NDArray Int)) (.value ⟨[], [7]⟩) =
        .ok (dictSet [] (valueKey "A") (.value ⟨[], [7]⟩))
      ∧ classPropertyGet "A"
          (dictSet ([] : ObjDict (NDArray Int)) (valueKey "A") (.value ⟨[], [7]⟩)) =
          .ok (.value ⟨[], [7]⟩))
    ∧ (classPropertySet "A" wDictWithTemplate (.value ⟨[], [7]⟩) =
        .ok (dictSet wDictWithTemplate (valueKey "A") (.value ⟨[1, 1], [7]⟩))
      ∧ classPropertyGet "A"
          (dictSet wDictWithTemplate (valueKey "A") (.value ⟨[1, 1], [7]⟩)) =
          .ok (.value ⟨[1, 1], [7]⟩)) :=
  ⟨(classProperty_get_set_semantics "A" [] (⟨[], [7]⟩ : NDArray Int)).1 rfl,
   (classProperty_get_set_semantics "A" [] (⟨[], [7]⟩ : NDArray Int)).2.2.1 rfl,
   (classProperty_get_set_semantics "A" wDictWithTemplate
      (⟨[], [7]⟩ : NDArray Int)).2.2.2 wTemplateOneOne ⟨[1, 1], [7]⟩ rfl rfl⟩

/-- Witness for C10: the installed 2x2 non-multiplicative template rejects
the scalar `7`, and the attribute's state is untouched. -/
theorem classProperty_failed_set_preserves_state_witness :
    classPropertySet "A" wDictWithStrictTemplate (.value ⟨[], [7]⟩) =
      .error (.shapeMismatch "A" (2, 2) [])
    ∧ setAttempt "A" wDictWithStrictTemplate (.value ⟨[], [7]⟩) =
        wDictWithStrictTemplate
    ∧ classPropertyGet "A"
        (setAttempt "A" wDictWithStrictTemplate (.value ⟨[], [7]⟩)) =
        classPropertyGet "A" wDictWithStrictTemplate
    ∧ installedTemplate "A"
        (setAttempt "A" wDictWithStrictTemplate (.value ⟨[], [7]⟩)) =
        some wTemplateTwoTwo :=
  classProperty_failed_set_preserves_state "A" wDictWithStrictTemplate
    ⟨[], [7]⟩ wTemplateTwoTwo (.shapeMismatch "A" (2, 2) []) rfl rfl

/-- Claim C6: when the squeezed shape of `v` equals the target `(M, N)` exactly,
`as_matrix` returns `squeeze v` unchanged — no reshape, no identity
scaling. -/
theorem as_matrix_exact_shape_returns_squeeze (M N : Nat) (v : NDArray Int)
    (nm : String) (mult : Bool) (h : (squeeze v).shape = [M, N]) :
    as_matrix (M, N) v nm mult = .ok (squeeze v) := by
  simp [as_matrix, h]

/-- Witness for C6: a `2x3` array wrapped in two singleton axes. -/
theorem as_matrix_exact_shape_returns_squeeze_witness :
    (squeeze (⟨[1, 2, 1, 3], [1, 2, 3, 4, 5, 6]⟩ : NDArray Int)).shape = [2, 3]
    ∧ as_matrix (2, 3) (⟨[1, 2, 1, 3], [1, 2, 3, 4, 5, 6]⟩ : NDArray Int)
        "x" true = .ok (squeeze ⟨[1, 2, 1, 3], [1, 2, 3, 4, 5, 6]⟩) :=
  ⟨rfl, as_matrix_exact_shape_returns_squeeze 2 3 ⟨[1, 2, 1, 3], [1, 2, 3, 4, 5, 6]⟩
    "x" true rfl⟩

/-- Claim C5: when exactly one of `M`, `N` equals 1 and the value squeezes to
rank at most 1 with exactly `M * N` elements, `as_matrix` reshapes it into
`(M, N)` preserving the row-major element order. -/
theorem as_matrix_flat_vector_reshape (M N : Nat) (v : NDArray Int)
    (nm : String) (mult : Bool)
    (hxor : (M = 1 ∧ N ≠ 1) ∨ (M ≠ 1 ∧ N = 1))
    (h1 : (squeeze v).ndim ≤ 1)
    (h2 : v.data.length = M * N) :
    as_matrix (M, N) v nm mult = .ok ⟨[M, N], v.data⟩ := by
  have hor : M = 1 ∨ N = 1 := by
    rcases hxor with ⟨h, _⟩ | ⟨_, h⟩
    · exact Or.inl h
    · exact Or.inr h
  have hne : (squeeze v).shape ≠ [M, N] := by
    intro hh
    have hlen := congrArg List.length hh
    unfold NDArray.ndim at h1
    simp at hlen
    omega
  have hdata : (squeeze v).data = v.data := rfl
  have hcount : (squeeze v).data.length = M * N := by rw [hdata]; exact h2
  simp [as_matrix, hne, h1, hor, NDArray.reshape, hcount, hdata]
  exact h2

/-- Witness for C5: the flat vector `[1, 2, 3]` into target `(1, 3)`. -/
theorem as_matrix_flat_vector_reshape_witness :
    as_matrix (1, 3) (⟨[3], [1, 2, 3]⟩ : NDArray Int) "x" true =
      .ok ⟨[1, 3], [1, 2, 3]⟩ :=
  as_matrix_flat_vector_reshape 1 3 ⟨[3], [1, 2, 3]⟩ "x" true
    (Or.inl ⟨rfl, by decide⟩) (by decide) rfl

/-- Claim C4: for every square target `(M, M)` a scalar in multiplicative mode is
coerced to the scalar times the `M x M` identity matrix. -/
theorem as_matrix_scalar_square_multiplicative (M : Nat) (s : Int) (nm : String) :
    as_matrix (M, M) ⟨[], [s]⟩ nm true = .ok (scalarMulArr s (eye M M)) := by
  by_cases hM : M = 1
  · subst hM
    have heye : scalarMulArr s (eye 1 1) = (⟨[1, 1], [s]⟩ : NDArray Int) := by
      simp [scalarMulArr, eye, eyeData, List.range_succ, Function.comp, mul_one]
    rw [heye]
    rfl
  · simp [as_matrix, squeeze, NDArray.ndim, NDArray.item, hM]

/-- Claim C2 counterexample: a scalar against the square target `(1, 1)` with
`multiplicative = false` does not fail — the flat-reshape branch applies
and returns the `1 x 1` matrix. -/
theorem as_matrix_scalar_one_one_nonmultiplicative_succeeds :
    as_matrix (1, 1) ⟨[], [(7 : Int)]⟩ "x" false = .ok ⟨[1, 1], [7]⟩
    ∧ isShapeMismatchErr (as_matrix (1, 1) ⟨[], [(7 : Int)]⟩ "x" false) = false :=
  ⟨rfl, rfl⟩

/-- Claim C2 amended: a scalar with `multiplicative = false` fails with the
shape-mismatch error for every target with both dimensions at least 2
(in particular every square target of size at least 2), while the target
`(1, 1)` instead succeeds by reshaping the scalar. -/
theorem as_matrix_scalar_nonmultiplicative_mismatch (M N : Nat) (s : Int)
    (nm : String) (hM : 2 ≤ M) (hN : 2 ≤ N) :
    as_matrix (M, N) ⟨[], [s]⟩ nm false = .error (.shapeMismatch nm (M, N) [])
    ∧ as_matrix (1, 1) ⟨[], [s]⟩ nm false = .ok ⟨[1, 1], [s]⟩ := by
  constructor
  · have hM1 : M ≠ 1 := by omega
    have hN1 : N ≠ 1 := by omega
    simp [as_matrix, squeeze, NDArray.ndim, hM1, hN1]
  · rfl

/-- Witness for C2 (amended) at `(M, N) = (2, 3)`, scalar `7`. -/
theorem as_matrix_scalar_nonmultiplicative_mismatch_witness :
    as_matrix (2, 3) ⟨[], [(7 : Int)]⟩ "x" false =
      .error (.shapeMismatch "x" (2, 3) [])
    ∧ as_matrix (1, 1) ⟨[], [(7 : Int)]⟩ "x" false = .ok ⟨[1, 1], [7]⟩ :=
  as_matrix_scalar_nonmultiplicative_mismatch 2 3 7 "x" (by decide) (by decide)

/-- Claim C3 counterexample: for the vector target `(1, 3)` and a flat value of 2
elements the element count disagrees with `M * N`, yet the code does not
raise the labelled shape-mismatch error — the reshape branch applies and
numpy's reshape raises its own error, which carries no label and no
post-squeeze shape. -/
theorem as_matrix_vector_size_mismatch_not_shape_mismatch :
    as_matrix (1, 3) ⟨[2], [(0 : Int), 0]⟩ "x" true =
      .error (.cannotReshape 2 (1, 3))
    ∧ isShapeMismatchErr (as_matrix (1, 3) ⟨[2], [(0 : Int), 0]⟩ "x" true) = false :=
  ⟨rfl, rfl⟩

/-- Claim C3 amended: when the squeezed shape differs from `(M, N)`, the code's
flat-reshape guard (rank at most 1 and one of `M`, `N` equal to 1) is
false, and the scalar-identity guard is false, `as_matrix` fails with the
shape-mismatch error carrying the label, the expected shape and the
post-squeeze shape; in particular `coerce((3, 5), zeros(15))` fails this
way. -/
theorem as_matrix_no_path_shape_mismatch (M N : Nat) (v : NDArray Int)
    (nm : String) (mult : Bool)
    (h1 : (squeeze v).shape ≠ [M, N])
    (h2 : ¬((squeeze v).ndim ≤ 1 ∧ (M = 1 ∨ N = 1)))
    (h3 : ¬(mult = true ∧ (squeeze v).ndim = 0 ∧ M = N)) :
    as_matrix (M, N) v nm mult =
      .error (.shapeMismatch nm (M, N) (squeeze v).shape)
    ∧ as_matrix (3, 5) ⟨[15], List.replicate 15 (0 : Int)⟩ "x" true =
        .error (.shapeMismatch "x" (3, 5) [15]) := by
  constructor
  · simp [as_matrix, h1, h2, h3]
  · rfl

/-- Witness for C3 (amended) at the claim's own example
`coerce((3, 5), zeros(15))`. -/
theorem as_matrix_no_path_shape_mismatch_witness :
    as_matrix (3, 5) (⟨[15], List.replicate 15 (0 : Int)⟩ : NDArray Int)
      "x" true = .error (.shapeMismatch "x" (3, 5) [15]) :=
  (as_matrix_no_path_shape_mismatch 3 5 ⟨[15], List.replicate 15 (0 : Int)⟩
    "x" true (by decide) (by decide) (by decide)).1

/-- Claim C7: applying a `MatrixFunctionTemplate` to an already wrapped function
returns it unchanged when the shapes agree, fails with the template-shape
conflict when they differ, and applying it to a non-callable that is not a
wrapped function fails with the not-callable error. -/
theorem matrixFunctionTemplate_call_cases (ι : Type)
    (t : MatrixFunctionTemplate) (d : DecoratedMatrixFunction ι) :
    (d.shape = t.shape →
      t.call (.decorated d) = .ok d)
    ∧ (d.shape ≠ t.shape →
      t.call (.decorated d) = .error (.templateShapeConflict t.name d.shape))
    ∧ t.call (FunCandidate.notFun : FunCandidate ι) =
        .error (.notCallable t.name) := by
  refine ⟨?_, ?_, rfl⟩
  · intro h
    simp [MatrixFunctionTemplate.call, h]
  · intro h
    simp [MatrixFunctionTemplate.call, h]

/-- A concrete wrapped function of shape `(2, 2)` used by the C7 witness. -/
def wDecoratedTwoTwo : DecoratedMatrixFunction Unit :=
  ⟨(2, 2), .pystr "F", .pybool true, "return value of F", fun _ => .ok ⟨[], [0]⟩⟩

/-- Witness for C7 at a matching template, a mismatched template, and a
non-callable candidate. -/
theorem matrixFunctionTemplate_call_cases_witness :
    (MatrixFunctionTemplate.call ⟨"F", (2, 2), true⟩ (.decorated wDecoratedTwoTwo) =
      .ok wDecoratedTwoTwo)
    ∧ (MatrixFunctionTemplate.call ⟨"F", (3, 2), true⟩ (.decorated wDecoratedTwoTwo) =
      .error (.templateShapeConflict "F" (2, 2)))
    ∧ (MatrixFunctionTemplate.call ⟨"F", (2, 2), true⟩
        (FunCandidate.notFun : FunCandidate Unit) = .error (.notCallable "F")) :=
  ⟨(matrixFunctionTemplate_call_cases Unit ⟨"F", (2, 2), true⟩ wDecoratedTwoTwo).1 rfl,
   (matrixFunctionTemplate_call_cases Unit ⟨"F", (3, 2), true⟩ wDecoratedTwoTwo).2.1
     (by decide),
   (matrixFunctionTemplate_call_cases Unit ⟨"F", (2, 2), true⟩ wDecoratedTwoTwo).2.2⟩

/-- A plain callable of one unit argument returning the scalar `5`, the
candidate used to exhibit the `MatrixFunction` argument swap. -/
def wPlainScalarFun : FunCandidate Unit :=
  .plainFun (fun _ => .ok ⟨[], [(5 : Int)]⟩)

/-- Claim C1 code bug: `MatrixFunction.__call__` constructs
`DecoratedMatrixFunction(self.shape, f, self.multiplicative, name)`, but
the constructor's parameter list is `(shape, f, name, multiplicative)` —
the last two arguments are swapped.  With the defaults
`multiplicative=True, name=None` the produced wrapper stores
`name = True` and `multiplicative = None`, its label degrades to
`return value`, and a scalar returned against the square target `(2, 2)`
is rejected instead of being coerced to `5 * eye(2)`; with `name='g'` the
label is still `return value` (not `return value of g`) while the name
string is used as the (truthy) multiplicative flag. -/
theorem matrixFunction_swapped_arguments :
    ((MatrixFunction.call ⟨(2, 2), .pynone, true⟩ wPlainScalarFun).map
      (fun d => (d.name, d.multiplicative, d.resultName)) =
      .ok (.pybool true, .pynone, "return value"))
    ∧ ((MatrixFunction.call ⟨(2, 2), .pynone, true⟩ wPlainScalarFun).map
      (fun d => d.call ()) =
      .ok (.error (.shapeMismatch "return value" (2, 2) [])))
    ∧ ((MatrixFunction.call ⟨(2, 2), .pystr "g", true⟩ wPlainScalarFun).map
      (fun d => (d.multiplicative, d.resultName)) =
      .ok (.pystr "g", "return value"))
    ∧ (as_matrix (2, 2) ⟨[], [(5 : Int)]⟩ "return value" true =
      .ok (scalarMulArr 5 (eye 2 2))) :=
  ⟨rfl, rfl, rfl, rfl⟩

end Properties
